import Mathlib

/-!
Shallow embedding of the IOI engine (`src/ioi/ioi.py`) for checking the
repository's natural-language specification.

The repository builds FIX indication-of-interest messages with the
`simplefix` library, stores the last message per correlation id in Redis,
and sends the encoded bytes over a TCP socket.  Two facts about the source
govern almost all of its observable behavior and are modelled explicitly:

1. Line 60 of `ioi.py` reads `if key in self.FIX_TAGS:`.  `FIX_TAGS` is
   only a module-level name (`from ioi.constants import FIX_TAGS`, line
   12); it is never made a class or instance attribute, the class has no
   base with such an attribute and no `__getattr__`, and Python does not
   resolve module globals through `self`.  The membership test therefore
   raises `AttributeError` on the first iteration of the kwargs loop, so
   the constructor crashes for every non-empty field set, before any body
   pair is appended.  Only the empty field set constructs: the loop is
   skipped and, since `"checksum" not in kwargs` holds, the configured
   default checksum is appended as a tag-10 body pair.  (The content of
   the absent `ioi/constants.py` is irrelevant to this: it is imported
   before the class exists and cannot make `self.FIX_TAGS` resolve.)

2. The operations read `self.message["symbol"]` / `self.message["side"]`
   / `self.message["ioi_qty"]` / `self.message["ioi_ref_id"]`.
   simplefix's `FixMessage.__getitem__` is positional sequence indexing
   over the stored pair list (it backs `msg[n]` and iteration); tag lookup
   by name is the separate `.get` method, which the source never calls.
   Subscripting with a string is rejected by the underlying list with
   `TypeError`, so on the one constructible instance (the empty field
   set) every operation crashes at its first statement.

The embedding models: `FixMessage` (ordered tag/value pairs split into the
header section and the body section, tags in the decimal-string form
`fix_tag` stores), its `append_pair`, positional `getitem`, the library's
`get` method, and the default cooked `encode()` (computed BodyLength and
checksum, tags 8/9/35 re-positioned, checksum pair last); `Config` (the
`os.environ` values plus the `append_time(52)` timestamp); the Redis
keyspace as an association list, with `_send` recorded by appending the
encoded bytes to a `sent` list; the `IndicationOfInterest` constructor and
its `submit`, `replace` and `cancel` methods; and the three FastAPI route
handlers, which pass the tags dict positionally to the keyword-only
constructor.  Fallible Python code is modelled with `Except PyErr`; a
Python `None` return is `Option.none`.
-/

namespace IoiEngine

/-- Python/simplefix error outcomes relevant to this module. -/
inductive PyErr where
  | assertionError : String → PyErr
  | attributeError : String → PyErr
  | typeError : String → PyErr
  | valueError : String → PyErr
  | indexError : String → PyErr
deriving DecidableEq

/-- UTF-8 encoding of one character, as byte values.  Models CPython's
`bytes(value, "UTF-8")` used by simplefix's `fix_val` on `str` inputs. -/
def charBytes (c : Char) : List Nat :=
  let n := c.toNat
  if n < 128 then [n]
  else if n < 2048 then [192 + n / 64, 128 + n % 64]
  else if n < 65536 then [224 + n / 4096, 128 + (n / 64) % 64, 128 + n % 64]
  else [240 + n / 262144, 128 + (n / 4096) % 64, 128 + (n / 64) % 64, 128 + n % 64]

/-- UTF-8 bytes of a string. -/
def strBytes (s : String) : List Nat :=
  s.data.foldr (fun c acc => charBytes c ++ acc) []

/-- Byte length of a string's UTF-8 encoding (simplefix's `len(buf)`). -/
def byteLen (s : String) : Nat := (strBytes s).length

/-- Sum of the UTF-8 bytes of a string (simplefix's checksum loop). -/
def byteSum (s : String) : Nat := (strBytes s).foldl (fun a b => a + b) 0

/-- The FIX field separator SOH (byte 0x01). -/
def soh : String := String.mk [Char.ofNat 1]

/-- simplefix's `"%03u" % (checksum % 256)`: the checksum reduced modulo
256 and zero-padded to three digits. -/
def checksumStr (n : Nat) : String :=
  let s := toString (n % 256)
  if s.length = 1 then "00" ++ s else if s.length = 2 then "0" ++ s else s

/-- Render a pair list as wire text: `tag=value` chunks each followed by SOH. -/
def renderPairs (ps : List (String × String)) : String :=
  ps.foldl (fun acc p => acc ++ p.1 ++ "=" ++ p.2 ++ soh) ""

/-- A simplefix `FixMessage`: ordered tag/value pairs.  Pairs appended with
`header=True` live in `header` (simplefix inserts them at the end of the
header section, i.e. before every body pair); all other pairs live in
`body` in append order.  Tags are kept in their decimal-string form. -/
structure FixMessage where
  header : List (String × String)
  body : List (String × String)
deriving DecidableEq

/-- simplefix `FixMessage.append_pair(tag, value, header=...)`. -/
def FixMessage.append_pair (m : FixMessage) (tag val : String) (hdr : Bool) :
    FixMessage :=
  if hdr then ⟨m.header ++ [(tag, val)], m.body⟩
  else ⟨m.header, m.body ++ [(tag, val)]⟩

/-- simplefix `FixMessage.get(tag)`: the library's tag lookup method —
find the first stored pair whose tag equals the decimal/string form of the
argument, `none` on a miss.  The cooked encoder uses it internally for
tags 8 and 35; the repository's code never calls it. -/
def FixMessage.get (m : FixMessage) (tag : String) : Option String :=
  ((m.header ++ m.body).find? (fun p => p.1 == tag)).map (fun p => p.2)

/-- A Python subscript: an integer position or a string. -/
inductive Subscript where
  | pos : Nat → Subscript
  | name : String → Subscript
deriving DecidableEq

/-- simplefix `FixMessage.__getitem__`: positional sequence indexing over
the stored pair list.  An integer subscript returns the pair at that
position (or raises `IndexError` past the end); a string subscript is
rejected by the underlying list with `TypeError` — `FixMessage` has no
get-by-name subscripting. -/
def FixMessage.getitem (m : FixMessage) :
    Subscript → Except PyErr (String × String)
  | Subscript.pos n =>
      match (m.header ++ m.body)[n]? with
      | some p => Except.ok p
      | none => Except.error (PyErr.indexError "list index out of range")
  | Subscript.name _ =>
      Except.error
        (PyErr.typeError "list indices must be integers or slices, not str")

/-- Whether a pair survives the cooked encoder's copy loop: tags 8, 9, 35
and 10 are skipped, since simplefix re-derives and re-positions them. -/
def notSpecialTag (p : String × String) : Bool :=
  !(p.1 == "8" || p.1 == "9" || p.1 == "35" || p.1 == "10")

/-- The pairs a cooked `encode()` copies verbatim, in stored order. -/
def FixMessage.restPairs (m : FixMessage) : List (String × String) :=
  (m.header ++ m.body).filter notSpecialTag

/-- The encoded body text: the hoisted `35` pair followed by the remaining
pairs.  Its byte length is the value of tag 9. -/
def FixMessage.cookedBodyStr (m : FixMessage) (mt : String) : String :=
  renderPairs (("35", mt) :: m.restPairs)

/-- The encoded prefix before the body: `8=<BeginString>` and the computed
`9=<body length>`. -/
def FixMessage.cookedHeadStr (m : FixMessage) (bs mt : String) : String :=
  renderPairs [("8", bs), ("9", toString (byteLen (m.cookedBodyStr mt)))]

/-- The checksum simplefix computes and appends: byte sum of everything
before the tag-10 pair, modulo 256, three digits. -/
def FixMessage.cookedChecksum (m : FixMessage) (bs mt : String) : String :=
  checksumStr (byteSum (m.cookedHeadStr bs mt ++ m.cookedBodyStr mt))

/-- simplefix `FixMessage.encode()` in its default cooked mode, viewed as
the emitted pair sequence: `8`, computed `9`, hoisted `35`, the remaining
stored pairs in order, then the computed `10` pair last.  `none` models the
`ValueError` raised when tag 8 or tag 35 is absent. -/
def FixMessage.encodeCooked (m : FixMessage) :
    Option (List (String × String)) :=
  match m.get "8", m.get "35" with
  | some bs, some mt =>
      some ([("8", bs), ("9", toString (byteLen (m.cookedBodyStr mt))),
             ("35", mt)] ++ m.restPairs ++ [("10", m.cookedChecksum bs mt)])
  | _, _ => none

/-- The encoded wire bytes, as a string of the rendered pair sequence. -/
def FixMessage.encodeBytes (m : FixMessage) : Option String :=
  (m.encodeCooked).map renderPairs

/-- A string form of the message for the Redis write
`r.json().set(..., self.message.to_string())`.  The write sits on paths
the operations never reach, so no claim depends on its exact shape. -/
def FixMessage.to_string (m : FixMessage) : String :=
  renderPairs (m.header ++ m.body)

/-- Process configuration read from `os.environ`, plus the timestamp the
`append_time(52, header=True)` call stamps into the header. -/
structure Config where
  sender : String
  target : String
  checksum : String
  host : String
  port : String
  send_time : String
deriving DecidableEq

/-- A field set: the keyword arguments of a request, in iteration order. -/
abbrev FieldSet := List (String × String)

/-- The Redis keyspace: key to stored message string. -/
abbrev Store := List (String × String)

/-- Association-list lookup by string key. -/
def assocLookup {β : Type} (k : String) : List (String × β) → Option β
  | [] => none
  | p :: t => if k = p.1 then some p.2 else assocLookup k t

/-- Redis upsert for `r.json().set(key, Path.root_path(), value)`. -/
def storeSet (st : Store) (k v : String) : Store :=
  match st with
  | [] => [(k, v)]
  | p :: t => if p.1 = k then (k, v) :: t else p :: storeSet t k v

/-- Redis `r.exists(key)`. -/
def storeExists (st : Store) (k : String) : Bool :=
  (assocLookup k (st : List (String × String))).isSome

/-- Model of `IndicationOfInterest._set_headers`: the six header pairs,
appended with `header=True`.  `append_time(52, header=True)` is modelled
by appending the clock value carried in `cfg`. -/
def set_headers (cfg : Config) (m : FixMessage) : FixMessage :=
  (((((m.append_pair "8" "FIX.4.4" true).append_pair "35" "6"
      true).append_pair "49" cfg.sender true).append_pair "56" cfg.target
      true).append_pair "34" "4684" true).append_pair "52" cfg.send_time true

/-- The header pair list `_set_headers` leaves in a fresh message. -/
def hdrList (cfg : Config) : List (String × String) :=
  [("8", "FIX.4.4"), ("35", "6"), ("49", cfg.sender), ("56", cfg.target),
   ("34", "4684"), ("52", cfg.send_time)]

/-- Model of `IndicationOfInterest.__init__`: fresh message, headers, then
the loop over `kwargs.items()`.  For a non-empty field set the first
iteration evaluates `key in self.FIX_TAGS` (ioi.py line 60); the class
defines no `FIX_TAGS` attribute — the name is only a module-level import,
and Python does not resolve module globals through `self` — so the access
raises `AttributeError` and construction fails before any body pair is
appended.  For the empty field set the loop does not run; then
`"checksum" not in kwargs` holds and the configured default checksum is
appended as a tag-10 body pair. -/
def initMessage (cfg : Config) (kwargs : FieldSet) :
    Except PyErr FixMessage :=
  let m := set_headers cfg ⟨[], []⟩
  match kwargs with
  | [] => Except.ok (m.append_pair "10" cfg.checksum false)
  | _ :: _ =>
      Except.error
        (PyErr.attributeError
          "IndicationOfInterest object has no attribute FIX_TAGS")

/-- Result of running one operation: the Python outcome (an exception, or a
returned value where `Option.none` is Python `None`), together with the
final Redis state and the list of byte strings handed to the socket. -/
abbrev RunResult := Except PyErr (Option String) × Store × List String

/-- Model of `IndicationOfInterest.submit` on a constructed message.  The
assert's condition evaluates `self.message["symbol"]` first: a string
subscript, which simplefix's positional `__getitem__` rejects with
`TypeError`, so the error propagates before the assert can pass or fail.
The remaining operands and the success continuation — the assert passing
(a subscripted value is never `None`), the uuid appended under tags 23 and
26, the trans-type pair `28=N`, the Redis write, and `_send` (which falls
off its end, returning `None`) — are written out below but are unreachable
for string subscripts. -/
def submitOp (m : FixMessage) (st : Store) (sent : List String)
    (i : String) : RunResult :=
  match m.getitem (Subscript.name "symbol") with
  | Except.error e => (Except.error e, st, sent)
  | Except.ok _ =>
      match m.getitem (Subscript.name "side") with
      | Except.error e => (Except.error e, st, sent)
      | Except.ok _ =>
          match m.getitem (Subscript.name "ioi_qty") with
          | Except.error e => (Except.error e, st, sent)
          | Except.ok _ =>
              let m1 := ((m.append_pair "23" i false).append_pair "26" i
                false).append_pair "28" "N" false
              let st1 := storeSet st ("ioi:" ++ i) m1.to_string
              match m1.encodeBytes with
              | some b => (Except.ok none, st1, sent ++ [b])
              | none =>
                  (Except.error (PyErr.valueError "Missing begin or type"),
                   st1, sent)

/-- Model of `IndicationOfInterest.replace`: its first statement subscripts
the message with the string `ioi_ref_id`, which raises `TypeError`.  The
continuation (assert, store lookup, appends, write, send, and the silent
fall-through returning `None` when the key is absent) follows the source
but is unreachable for string subscripts; `rid` stands in for the source's
interpolation of the subscripted object into the Redis key. -/
def replaceOp (m : FixMessage) (st : Store) (sent : List String) :
    RunResult :=
  match m.getitem (Subscript.name "ioi_ref_id") with
  | Except.error e => (Except.error e, st, sent)
  | Except.ok p =>
      let rid := p.2
      if storeExists st ("ioi:" ++ rid) then
        let m1 := (m.append_pair "26" rid false).append_pair "28" "R" false
        let st1 := storeSet st ("ioi:" ++ rid) m1.to_string
        match m1.encodeBytes with
        | some b => (Except.ok none, st1, sent ++ [b])
        | none =>
            (Except.error (PyErr.valueError "Missing begin or type"),
             st1, sent)
      else (Except.ok none, st, sent)

/-- Model of `IndicationOfInterest.cancel`: identical to `replace` except
for the trans-type value `C`. -/
def cancelOp (m : FixMessage) (st : Store) (sent : List String) :
    RunResult :=
  match m.getitem (Subscript.name "ioi_ref_id") with
  | Except.error e => (Except.error e, st, sent)
  | Except.ok p =>
      let rid := p.2
      if storeExists st ("ioi:" ++ rid) then
        let m1 := (m.append_pair "26" rid false).append_pair "28" "C" false
        let st1 := storeSet st ("ioi:" ++ rid) m1.to_string
        match m1.encodeBytes with
        | some b => (Except.ok none, st1, sent ++ [b])
        | none =>
            (Except.error (PyErr.valueError "Missing begin or type"),
             st1, sent)
      else (Except.ok none, st, sent)

/-- Construct `IndicationOfInterest(**kwargs)` and call `submit`: any
non-empty field set aborts inside `__init__` with `AttributeError`;
otherwise `submit` runs on the constructed message. -/
def submitRun (cfg : Config) (kwargs : FieldSet) (st : Store)
    (sent : List String) (i : String) : RunResult :=
  match initMessage cfg kwargs with
  | Except.error e => (Except.error e, st, sent)
  | Except.ok m => submitOp m st sent i

/-- Construct an instance from a field set and run `replace`. -/
def replaceRun (cfg : Config) (kwargs : FieldSet) (st : Store)
    (sent : List String) : RunResult :=
  match initMessage cfg kwargs with
  | Except.error e => (Except.error e, st, sent)
  | Except.ok m => replaceOp m st sent

/-- Construct an instance from a field set and run `cancel`. -/
def cancelRun (cfg : Config) (kwargs : FieldSet) (st : Store)
    (sent : List String) : RunResult :=
  match initMessage cfg kwargs with
  | Except.error e => (Except.error e, st, sent)
  | Except.ok m => cancelOp m st sent

/-- Python call semantics for constructing `IndicationOfInterest`:
`__init__(self, **kwargs)` declares no positional parameters besides
`self`, so any call supplying a positional argument raises `TypeError` at
argument binding, before the constructor body runs.  The route handlers
call `IndicationOfInterest(tags)` — one positional argument, no
keywords. -/
def callIndicationOfInterest (posArgs : List FieldSet) (kwargs : FieldSet)
    (cfg : Config) : Except PyErr FixMessage :=
  if posArgs.length = 0 then initMessage cfg kwargs
  else
    Except.error (PyErr.typeError
      "IndicationOfInterest() takes 1 positional argument but 2 were given")

/-- Outcome of a route handler: the HTTP-level result (the status-token
dictionary, or the exception that escaped), with the final Redis and
socket state. -/
abbrev EndpointResult :=
  Except PyErr (List (String × String)) × Store × List String

/-- The `/api/v1/ioi/submit` handler: `IndicationOfInterest(tags)` with the
tags dict as a single positional argument, then `ioi.submit()`, then
`return {"status": "submitted"}`. -/
def submitEndpoint (cfg : Config) (tags : FieldSet) (st : Store)
    (sent : List String) (i : String) : EndpointResult :=
  match callIndicationOfInterest [tags] [] cfg with
  | Except.error e => (Except.error e, st, sent)
  | Except.ok m =>
      match submitOp m st sent i with
      | (Except.error e, st1, sent1) => (Except.error e, st1, sent1)
      | (Except.ok _, st1, sent1) =>
          (Except.ok [("status", "submitted")], st1, sent1)

/-- The `/api/v1/ioi/replace` handler. -/
def replaceEndpoint (cfg : Config) (tags : FieldSet) (st : Store)
    (sent : List String) : EndpointResult :=
  match callIndicationOfInterest [tags] [] cfg with
  | Except.error e => (Except.error e, st, sent)
  | Except.ok m =>
      match replaceOp m st sent with
      | (Except.error e, st1, sent1) => (Except.error e, st1, sent1)
      | (Except.ok _, st1, sent1) =>
          (Except.ok [("status", "replaced")], st1, sent1)

/-- The `/api/v1/ioi/cancel` handler. -/
def cancelEndpoint (cfg : Config) (tags : FieldSet) (st : Store)
    (sent : List String) : EndpointResult :=
  match callIndicationOfInterest [tags] [] cfg with
  | Except.error e => (Except.error e, st, sent)
  | Except.ok m =>
      match cancelOp m st sent with
      | (Except.error e, st1, sent1) => (Except.error e, st1, sent1)
      | (Except.ok _, st1, sent1) =>
          (Except.ok [("status", "cancelled")], st1, sent1)

/-- The error with which every request fails: the `TypeError` from the
string subscript when the field set is empty (so construction succeeded),
otherwise the constructor's `AttributeError`. -/
def opFailure (ks : FieldSet) : PyErr :=
  if ks = [] then
    PyErr.typeError "list indices must be integers or slices, not str"
  else
    PyErr.attributeError
      "IndicationOfInterest object has no attribute FIX_TAGS"

/-- A concrete configuration used to evaluate the model on closed inputs. -/
def cfg0 : Config :=
  ⟨"SENDER0", "TARGET0", "555", "localhost", "1234", "20240101-00:00:00.000"⟩

/-- `_set_headers` on a fresh message yields exactly the header list. -/
theorem set_headers_nil (cfg : Config) :
    set_headers cfg ⟨[], []⟩ = ⟨hdrList cfg, []⟩ := rfl

/-- Construction succeeds only for the empty field set, producing the
headers plus the default-checksum body pair. -/
theorem initMessage_nil (cfg : Config) :
    initMessage cfg [] =
      Except.ok ⟨hdrList cfg, [("10", cfg.checksum)]⟩ := rfl

/-- Construction crashes with `AttributeError` for every non-empty field
set. -/
theorem initMessage_cons (cfg : Config) (a : String × String)
    (t : FieldSet) :
    initMessage cfg (a :: t) =
      Except.error
        (PyErr.attributeError
          "IndicationOfInterest object has no attribute FIX_TAGS") := rfl

/-- Every string subscript of a message raises `TypeError`. -/
theorem getitem_name_raises (m : FixMessage) (s : String) :
    m.getitem (Subscript.name s) =
      Except.error
        (PyErr.typeError
          "list indices must be integers or slices, not str") := rfl

/-- `submit` fails on every field set: `AttributeError` in the constructor
for non-empty field sets, `TypeError` from the string subscript for the
empty one; the store and sent list are untouched either way. -/
theorem submitRun_result (cfg : Config) (ks : FieldSet) (st : Store)
    (sent : List String) (i : String) :
    submitRun cfg ks st sent i =
      (Except.error (opFailure ks), st, sent) := by
  cases ks with
  | nil => rfl
  | cons a t => rfl

/-- `replace` fails on every field set, with state untouched. -/
theorem replaceRun_result (cfg : Config) (ks : FieldSet) (st : Store)
    (sent : List String) :
    replaceRun cfg ks st sent =
      (Except.error (opFailure ks), st, sent) := by
  cases ks with
  | nil => rfl
  | cons a t => rfl

/-- `cancel` fails on every field set, with state untouched. -/
theorem cancelRun_result (cfg : Config) (ks : FieldSet) (st : Store)
    (sent : List String) :
    cancelRun cfg ks st sent =
      (Except.error (opFailure ks), st, sent) := by
  cases ks with
  | nil => rfl
  | cons a t => rfl

/-- The failure is never an `AssertionError`, whatever its message. -/
theorem opFailure_ne_assertion (ks : FieldSet) (s : String) :
    opFailure ks ≠ PyErr.assertionError s := by
  unfold opFailure
  by_cases h : ks = [] <;> simp [h]

/-- C1: the claim says `submit({symbol: "AAPL", side: "1", ioi_qty:
"100"})` succeeds, writes one NEW Correlation Record under a fresh id, and
sends an encoded message carrying those fields.  Evaluating the model at
exactly that input: the constructor raises `AttributeError` on the first
kwargs iteration (`self.FIX_TAGS`, ioi.py line 60), so `submit` never
runs, no Correlation Record is written and nothing is sent. -/
theorem c1_submit_valid_input_crashes_in_init :
    submitRun cfg0 [("symbol", "AAPL"), ("side", "1"), ("ioi_qty", "100")]
        [("ioi:seed", "old")] ["prior"]
        "9f1b2c3a-1111-11ee-8c99-0242ac120002" =
      (Except.error
        (PyErr.attributeError
          "IndicationOfInterest object has no attribute FIX_TAGS"),
       [("ioi:seed", "old")], ["prior"]) := rfl

/-- C2: the claim says field sets missing or emptying `symbol`, `side` or
`ioi_qty` are rejected with a `ValidationError` and no store or transport
effect.  In fact `submit` fails on every field set — with the
constructor's `AttributeError` when the field set is non-empty, and with
the `TypeError` from the string subscript `message["symbol"]` when it is
empty — never with the required-fields `AssertionError` the code's own
tests expect; the no-effects half does hold: the store and the sent list
are returned untouched. -/
theorem c2_submit_fails_but_never_validation (cfg : Config) (ks : FieldSet)
    (st : Store) (sent : List String) (i : String) :
    submitRun cfg ks st sent i =
      (Except.error (opFailure ks), st, sent) ∧
    opFailure ks ≠
      PyErr.assertionError
        "Symbol, side, and IOI quantity are required..." :=
  ⟨submitRun_result cfg ks st sent i, opFailure_ne_assertion ks _⟩

/-- C3: the claim says field sets missing `ioi_ref_id` make `replace` and
`cancel` fail with a `ValidationError` and no side effects.  In fact both
operations fail on every field set with the constructor's `AttributeError`
(non-empty) or the subscript `TypeError` (empty) — never with the
`ioi_ref_id` `AssertionError` the code's own tests expect; the store and
the sent list are untouched. -/
theorem c3_replace_cancel_fail_but_never_validation (cfg : Config)
    (ks : FieldSet) (st : Store) (sent : List String) :
    replaceRun cfg ks st sent =
      (Except.error (opFailure ks), st, sent) ∧
    cancelRun cfg ks st sent =
      (Except.error (opFailure ks), st, sent) ∧
    opFailure ks ≠ PyErr.assertionError "IOI ref ID required..." :=
  ⟨replaceRun_result cfg ks st sent, cancelRun_result cfg ks st sent,
   opFailure_ne_assertion ks _⟩

/-- C4: the claim says `replace`/`cancel` with an `ioi_ref_id` absent from
the store are silent no-ops (no result, no error, no send, no write).
Evaluating the code at `{ioi_ref_id: "123"}` against an empty store: the
constructor raises `AttributeError` (ioi.py line 60) before the store is
ever consulted, so the operations error rather than no-op, with the store
and the sent list untouched. -/
theorem c4_unknown_ref_crashes_in_init :
    storeExists [] ("ioi:" ++ "123") = false ∧
    replaceRun cfg0 [("ioi_ref_id", "123")] [] [] =
      (Except.error
        (PyErr.attributeError
          "IndicationOfInterest object has no attribute FIX_TAGS"),
       [], []) ∧
    cancelRun cfg0 [("ioi_ref_id", "123")] [] [] =
      (Except.error
        (PyErr.attributeError
          "IndicationOfInterest object has no attribute FIX_TAGS"),
       [], []) :=
  ⟨rfl, rfl, rfl⟩

/-- C5: the claim states a header/body/checksum ordering invariant for
every message produced by `submit`, `replace` or `cancel`.  The code never
produces any message: every operation, on every field set, fails (the
constructor's `AttributeError`, or the subscript `TypeError`) and leaves
the sent list unchanged, so nothing is ever appended, encoded or handed to
the transport. -/
theorem c5_no_message_is_ever_produced (cfg : Config) (ks : FieldSet)
    (st : Store) (sent : List String) (i : String) :
    (submitRun cfg ks st sent i).2.2 = sent ∧
    (submitRun cfg ks st sent i).1 = Except.error (opFailure ks) ∧
    (replaceRun cfg ks st sent).2.2 = sent ∧
    (replaceRun cfg ks st sent).1 = Except.error (opFailure ks) ∧
    (cancelRun cfg ks st sent).2.2 = sent ∧
    (cancelRun cfg ks st sent).1 = Except.error (opFailure ks) := by
  have hs := submitRun_result cfg ks st sent i
  have hr := replaceRun_result cfg ks st sent
  have hc := cancelRun_result cfg ks st sent
  exact ⟨by rw [hs], by rw [hs], by rw [hr], by rw [hr], by rw [hc],
    by rw [hc]⟩

/-- C6: the claim says unrecognized field names are excluded from the
encoded output and never cause a failure.  In fact supplying the
unrecognized name `not_a_fix_field` makes construction crash with
`AttributeError` (the loop that was meant to drop unknown keys dies on its
first iteration), while the empty field set constructs fine — so an
unknown key does cause the operation to fail. -/
theorem c6_unknown_field_name_causes_failure :
    initMessage cfg0 [] =
      Except.ok ⟨hdrList cfg0, [("10", cfg0.checksum)]⟩ ∧
    initMessage cfg0 [("not_a_fix_field", "42")] =
      Except.error
        (PyErr.attributeError
          "IndicationOfInterest object has no attribute FIX_TAGS") ∧
    submitRun cfg0 [("not_a_fix_field", "42")] [] [] "u6" =
      (Except.error
        (PyErr.attributeError
          "IndicationOfInterest object has no attribute FIX_TAGS"),
       [], []) :=
  ⟨rfl, rfl, rfl⟩

/-- C7: the claim says a supplied checksum value is carried verbatim as
the encoded message's checksum pair, the configured default being used
only when no checksum is supplied.  In fact any field set that supplies a
checksum is non-empty, so construction crashes with `AttributeError`
before the checksum entry is examined: the supplied value is never stored
and nothing is ever encoded.  Only the empty field set constructs, and
there the configured default is appended as the tag-10 body pair. -/
theorem c7_supplied_checksum_never_stored_or_encoded :
    initMessage cfg0 [("symbol", "AAPL"), ("checksum", "999")] =
      Except.error
        (PyErr.attributeError
          "IndicationOfInterest object has no attribute FIX_TAGS") ∧
    submitRun cfg0 [("symbol", "AAPL"), ("checksum", "999")] [] [] "u7" =
      (Except.error
        (PyErr.attributeError
          "IndicationOfInterest object has no attribute FIX_TAGS"),
       [], []) ∧
    initMessage cfg0 [] =
      Except.ok ⟨hdrList cfg0, [("10", cfg0.checksum)]⟩ :=
  ⟨rfl, rfl, rfl⟩

/-- C8: the claim says `submit` with valid required fields returns the
encoded bytes or propagates a `TransportError`.  Evaluating the code at a
valid field set: the constructor raises `AttributeError`, so no bytes are
returned and the transport is never reached (independently, `_send` has no
return statement, so even the intended success path would return Python
`None`, not bytes). -/
theorem c8_submit_no_bytes_no_transport :
    (submitRun cfg0 [("symbol", "MSFT"), ("side", "2"), ("ioi_qty", "500")]
        [] [] "7c0d9e2b-2222-11ee-8c99-0242ac120002").1 =
      Except.error
        (PyErr.attributeError
          "IndicationOfInterest object has no attribute FIX_TAGS") ∧
    (submitRun cfg0 [("symbol", "MSFT"), ("side", "2"), ("ioi_qty", "500")]
        [] [] "7c0d9e2b-2222-11ee-8c99-0242ac120002").2.2 =
      ([] : List String) :=
  ⟨rfl, rfl⟩

/-- C9, counterexample: the claim says each operation raises its assertion
failure on every field set, the lookups returning none.  At the fully
valid field set the outcome is the constructor's `AttributeError`, which
is not the assertion failure; and on the one constructible message the
`symbol` subscript raises `TypeError` instead of returning a none-like
miss. -/
theorem c9_counterexample_no_assertion_raised :
    submitRun cfg0 [("symbol", "AAPL"), ("side", "1"), ("ioi_qty", "100")]
        [] [] "u9" =
      (Except.error
        (PyErr.attributeError
          "IndicationOfInterest object has no attribute FIX_TAGS"),
       [], []) ∧
    PyErr.attributeError
        "IndicationOfInterest object has no attribute FIX_TAGS" ≠
      PyErr.assertionError
        "Symbol, side, and IOI quantity are required..." ∧
    (⟨hdrList cfg0, [("10", cfg0.checksum)]⟩ : FixMessage).getitem
        (Subscript.name "symbol") =
      Except.error
        (PyErr.typeError
          "list indices must be integers or slices, not str") :=
  ⟨rfl, by decide, rfl⟩

/-- C9, amended: the required-field checks never run for any non-empty
field set — the constructor crashes first with `AttributeError` at the
`self.FIX_TAGS` membership test — and on the only constructible instance
(the empty field set) the checks' string subscripts raise `TypeError`,
because simplefix subscripting is positional sequence indexing, not a
name lookup returning none; so no operation ever reaches its assertion and
every request fails regardless of the supplied fields, with state
untouched. -/
theorem c9_ops_crash_before_assertions (cfg : Config) (ks : FieldSet)
    (st : Store) (sent : List String) (i : String) :
    submitRun cfg ks st sent i =
      (Except.error (opFailure ks), st, sent) ∧
    replaceRun cfg ks st sent =
      (Except.error (opFailure ks), st, sent) ∧
    cancelRun cfg ks st sent =
      (Except.error (opFailure ks), st, sent) ∧
    ∀ s : String,
      (⟨hdrList cfg, [("10", cfg.checksum)]⟩ : FixMessage).getitem
          (Subscript.name s) =
        Except.error
          (PyErr.typeError
            "list indices must be integers or slices, not str") :=
  ⟨submitRun_result cfg ks st sent i, replaceRun_result cfg ks st sent,
   cancelRun_result cfg ks st sent, fun _ => rfl⟩

/-- C10: every route handler passes the tags dictionary as a positional
argument to the keyword-only constructor, so every HTTP request fails with
the `TypeError` before validation, the store or the transport can be
reached, and no status token is ever returned. -/
theorem c10_endpoints_type_error (cfg : Config) (tags : FieldSet)
    (st : Store) (sent : List String) (i : String) :
    submitEndpoint cfg tags st sent i =
      (Except.error (PyErr.typeError
        "IndicationOfInterest() takes 1 positional argument but 2 were given"),
       st, sent) ∧
    replaceEndpoint cfg tags st sent =
      (Except.error (PyErr.typeError
        "IndicationOfInterest() takes 1 positional argument but 2 were given"),
       st, sent) ∧
    cancelEndpoint cfg tags st sent =
      (Except.error (PyErr.typeError
        "IndicationOfInterest() takes 1 positional argument but 2 were given"),
       st, sent) :=
  ⟨rfl, rfl, rfl⟩

/-- Witness for C10 at a concrete request. -/
theorem c10_endpoints_type_error_witness :
    submitEndpoint cfg0 [("symbol", "AAPL")] [] [] "u10" =
      (Except.error (PyErr.typeError
        "IndicationOfInterest() takes 1 positional argument but 2 were given"),
       [], []) :=
  (c10_endpoints_type_error cfg0 [("symbol", "AAPL")] [] [] "u10").1

end IoiEngine
